import Mathlib

/-
Verification of the Sensor Visualization Controller of the nrfis frontend.
The definitions below are a shallow embedding of the generic Screen
component (src/unnamed/part_000) and of SteelFrameScreen
(src/frontend/app/src/screens/SteelFrameScreen.js).  Numeric readings are
modelled as integers; the values Infinity and -Infinity produced by the
JavaScript expressions Math.min(...[]) and Math.max(...[]) are modelled
explicitly by the ENum type.
-/

namespace Nrfis

/-- Numeric values arising in the controller: finite readings plus the two
infinities that Math.min and Math.max return on an empty spread. -/
inductive ENum where
  | num (v : Int)
  | posInf
  | negInf
deriving DecidableEq, Repr

/-- One sample returned by the data endpoint: a timestamp plus the channel
mapping, keys kept in discovery order as in a JavaScript object. -/
structure SensorReading where
  timestamp : String
  readings : List (String × Int)
deriving DecidableEq, Repr

/-- One ambient temperature sample from the secondary endpoint. -/
structure TempSample where
  temperature : Int
  timestamp : String
deriving DecidableEq, Repr

/-- Entry of the sensors list built at lines 77-81 of part_000.  The colour
is an Option because chartColours[index % chartColours.length] is undefined
when the palette is empty. -/
structure SensorOption where
  name : String
  isSelected : Bool
  colour : Option String
deriving DecidableEq, Repr

/-- The chartOptions state object, part_000 lines 24-28. -/
structure ChartOptions where
  sensors : List SensorOption
  showTemperature : Bool
  temperatureData : List TempSample
deriving DecidableEq, Repr

/-- The modelOptions state object, part_000 lines 29-33.  The scale is an
Option because the lookup modelColourScale[dataType] is undefined for a
dataType absent from the table. -/
structure ModelOptions where
  showContext : Bool
  colourMode : Int
  scale : Option (List ENum)
deriving DecidableEq, Repr

/-- The full visible state of the Screen component, part_000 lines 17-33.
mode is 0 for Model and 1 for Chart; liveMode is 0 for Live and 1 for
Historical. -/
structure ScreenState where
  data : List SensorReading
  mode : Int
  live : Bool
  liveMode : Int
  dataRange : List ENum
  dataType : String
  isLoading : Bool
  chartOptions : ChartOptions
  modelOptions : ModelOptions
deriving DecidableEq, Repr

/-- The initial state of the Screen component, from the useState
initialisers at part_000 lines 17-33. -/
def initialState : ScreenState :=
  { data := []
    mode := 0
    live := false
    liveMode := 1
    dataRange := []
    dataType := "str"
    isLoading := false
    chartOptions := { sensors := [], showTemperature := false, temperatureData := [] }
    modelOptions := { showContext := true, colourMode := 0, scale := some [ENum.num 0, ENum.num 0] } }

/-- Result of an awaited fetch: either the parsed payload or a rejection
(network, transport or parse failure). -/
inductive Fetched (α : Type) where
  | ok (val : α)
  | err
deriving DecidableEq, Repr

/-- Math.min applied to a spread list of numbers; the empty spread yields
Infinity. -/
def jsMin : List Int → ENum
  | [] => ENum.posInf
  | x :: xs => ENum.num (xs.foldl min x)

/-- Math.max applied to a spread list of numbers; the empty spread yields
-Infinity. -/
def jsMax : List Int → ENum
  | [] => ENum.negInf
  | x :: xs => ENum.num (xs.foldl max x)

/-- The reduce at part_000 lines 59-63: concatenates the channel values of
every reading, dropping the timestamp field. -/
def allReadings (data : List SensorReading) : List Int :=
  data.foldl (fun acc r => acc ++ r.readings.map Prod.snd) []

/-- The dataRange computation at part_000 lines 59-64:
[Math.min(...allReadings), Math.max(...allReadings)]. -/
def computeDataRange (data : List SensorReading) : List ENum :=
  [jsMin (allReadings data), jsMax (allReadings data)]

/-- The sensors mapping at part_000 lines 77-81: sensorNames.map with index,
isSelected true for the first three, colour taken round robin from the
chartColours palette.  The start argument is the running index of the map. -/
def computeSensors (palette : List String) (start : Nat) : List String → List SensorOption
  | [] => []
  | name :: rest =>
      { name := name
        isSelected := decide (start < 3)
        colour := palette.get? (start % palette.length) } ::
      computeSensors palette (start + 1) rest

/-- Embedding of the refresh function, part_000 lines 46-94.  The two
awaited fetches are passed in as Fetched values.  The palette argument
stands for the chartColours constant and modelColourScale for the fixed
colour scale table, both imported from ../utils which is outside src; the
spec treats the table as externally supplied configuration, so both are
parameters here.  The returned Bool is true exactly when the catch block at
lines 90-92 ran, i.e. when an error was caught and logged.  Fidelity notes:
setData, setDataType and setDataRange run before the destructuring of
data[0] at line 73, which throws a TypeError when data is empty; the
temperature fetch at line 82 is awaited before setChartOptions runs, so its
rejection leaves chartOptions and modelOptions untouched; the conditional
at line 88 tests the truthiness of colourMode, i.e. colourMode different
from 0. -/
def refresh (palette : List String) (modelColourScale : String → Option (Int × Int))
    (st : ScreenState) (dataType : String)
    (fetchResult : Fetched (List SensorReading))
    (tempResult : Fetched (List TempSample)) : ScreenState × Bool :=
  let st1 := { st with isLoading := true }
  match fetchResult with
  | Fetched.err => ({ st1 with isLoading := false }, true)
  | Fetched.ok data =>
    let st2 := { st1 with data := data, dataType := dataType }
    let dataRange := computeDataRange data
    let st3 := { st2 with dataRange := dataRange }
    let st4 := if dataType = "raw" then { st3 with mode := 1 } else st3
    match data with
    | [] => ({ st4 with isLoading := false }, true)
    | first :: _ =>
      let sensorNames := first.readings.map Prod.fst
      match tempResult with
      | Fetched.err => ({ st4 with isLoading := false }, true)
      | Fetched.ok temperatureData =>
        let st5 := { st4 with chartOptions :=
          { st4.chartOptions with
            sensors := computeSensors palette 0 sensorNames
            temperatureData := temperatureData } }
        let st6 := { st5 with modelOptions :=
          { st5.modelOptions with
            scale := if st5.modelOptions.colourMode ≠ 0
              then (modelColourScale dataType).map (fun (p : Int × Int) => [ENum.num p.1, ENum.num p.2])
              else some dataRange } }
        ({ st6 with isLoading := false }, false)

/-- A call of setMode as handed to the Menu at part_000 line 129: the
setter is passed through unguarded, so any invocation updates mode
directly. -/
def userSetMode (m : Int) (st : ScreenState) : ScreenState :=
  { st with mode := m }

/-- A call of setLiveMode as handed to the Menu at part_000 line 132: the
setter is passed through unguarded, so any invocation updates liveMode
directly. -/
def userSetLiveMode (m : Int) (st : ScreenState) : ScreenState :=
  { st with liveMode := m }

/-- Embedding of the useEffect at part_000 lines 37-44: on every change of
the live package list, live is recomputed by membership and, when the
package is not live, liveMode is forced to Historical. -/
def liveSetChanged (packageServerName : String) (livePackages : List String)
    (st : ScreenState) : ScreenState :=
  let live := livePackages.contains packageServerName
  let st1 := { st with live := live }
  if live then st1 else { st1 with liveMode := 1 }

/-- Modelled from the spec: the Menu component (imported at part_000 line 4
from ./Menu, not present under src) receives dataType and setMode; per the
spec the control surface for Model mode is disabled while the committed
series is of the raw type, so a user selection of Model (target 0) is
forwarded to setMode only when the committed dataType is not raw. -/
def menuSetMode (target : Int) (st : ScreenState) : ScreenState :=
  if target = 0 ∧ st.dataType = "raw" then st else userSetMode target st

/-- The inputs of one refresh invocation together with the payloads its two
fetches settle with. -/
structure RefreshCall where
  dataType : String
  fetchResult : Fetched (List SensorReading)
  tempResult : Fetched (List TempSample)
deriving DecidableEq, Repr

/-- Settling the responses of one refresh invocation: applies the full set
of state updates of that invocation to the current state. -/
def settle (palette : List String) (modelColourScale : String → Option (Int × Int))
    (st : ScreenState) (c : RefreshCall) : ScreenState :=
  (refresh palette modelColourScale st c.dataType c.fetchResult c.tempResult).1

/-- Settling a whole series of responses in the order given by the list:
each settlement commits against the state left by the previous one, which
is exactly the behaviour of concurrently in flight refresh invocations
whose responses arrive in that order. -/
def runSettles (palette : List String) (modelColourScale : String → Option (Int × Int))
    (st : ScreenState) (settled : List RefreshCall) : ScreenState :=
  settled.foldl (settle palette modelColourScale) st

namespace SteelFrameScreen

/-- The visible state of SteelFrameScreen, SteelFrameScreen.js lines
9-13. -/
structure SFState where
  data : List SensorReading
  mode : Int
  modelModeEnabled : Bool
  dataType : String
  isLoading : Bool
deriving DecidableEq, Repr

/-- Embedding of the refresh function of SteelFrameScreen.js lines 15-41:
on success the data and dataType are stored and, for the raw dataType, mode
is forced to Chart and the model mode button is disabled; otherwise the
button is enabled.  On a fetch rejection the catch at lines 37-39 logs and
leaves all state except isLoading unchanged. -/
def refresh (st : SFState) (dataType : String)
    (fetchResult : Fetched (List SensorReading)) : SFState :=
  let st1 := { st with isLoading := true }
  match fetchResult with
  | Fetched.err => { st1 with isLoading := false }
  | Fetched.ok data =>
    let st2 := { st1 with data := data, dataType := dataType }
    let st3 := if dataType = "raw"
      then { st2 with mode := 1, modelModeEnabled := false }
      else { st2 with modelModeEnabled := true }
    { st3 with isLoading := false }

end SteelFrameScreen

/-- Sample palette standing in for the chartColours constant. -/
def samplePalette : List String := ["red", "green", "blue"]

/-- A fixed scale table with an entry for the str dataType only. -/
def sampleScaleTable : String → Option (Int × Int) :=
  fun dt => if dt = "str" then some (0, 100) else none

/-- A fixed scale table with no entries at all. -/
def emptyScale : String → Option (Int × Int) := fun _ => none

/-- Sample reading with channels s1 and s2. -/
def r1 : SensorReading := { timestamp := "t0", readings := [("s1", 1), ("s2", 5)] }

/-- Second sample reading with channels s1 and s2. -/
def r2 : SensorReading := { timestamp := "t1", readings := [("s1", 3), ("s2", 2)] }

/- ------------------------------------------------------------------ -/
/- Helper lemmas.                                                      -/
/- ------------------------------------------------------------------ -/

lemma foldl_min_mem (x : Int) (xs : List Int) : xs.foldl min x ∈ x :: xs := by
  induction xs generalizing x with
  | nil => simp [List.foldl]
  | cons y ys ih =>
    have h := ih (min x y)
    simp only [List.foldl]
    rcases List.mem_cons.mp h with h1 | h1
    · rcases min_choice x y with hm | hm
      · rw [h1, hm]; exact List.mem_cons_self _ _
      · rw [h1, hm]; exact List.mem_cons_of_mem _ (List.mem_cons_self _ _)
    · exact List.mem_cons_of_mem _ (List.mem_cons_of_mem _ h1)

lemma foldl_min_le (x : Int) (xs : List Int) : ∀ v ∈ x :: xs, xs.foldl min x ≤ v := by
  induction xs generalizing x with
  | nil =>
    intro v hv
    rw [List.mem_singleton] at hv
    simp [List.foldl, hv]
  | cons y ys ih =>
    intro v hv
    simp only [List.foldl]
    have hhead := ih (min x y) (min x y) (List.mem_cons_self _ _)
    rcases List.mem_cons.mp hv with h1 | h1
    · subst h1; exact le_trans hhead (min_le_left v y)
    · rcases List.mem_cons.mp h1 with h2 | h2
      · subst h2; exact le_trans hhead (min_le_right x v)
      · exact ih (min x y) v (List.mem_cons_of_mem _ h2)

lemma foldl_max_mem (x : Int) (xs : List Int) : xs.foldl max x ∈ x :: xs := by
  induction xs generalizing x with
  | nil => simp [List.foldl]
  | cons y ys ih =>
    have h := ih (max x y)
    simp only [List.foldl]
    rcases List.mem_cons.mp h with h1 | h1
    · rcases max_choice x y with hm | hm
      · rw [h1, hm]; exact List.mem_cons_self _ _
      · rw [h1, hm]; exact List.mem_cons_of_mem _ (List.mem_cons_self _ _)
    · exact List.mem_cons_of_mem _ (List.mem_cons_of_mem _ h1)

lemma le_foldl_max (x : Int) (xs : List Int) : ∀ v ∈ x :: xs, v ≤ xs.foldl max x := by
  induction xs generalizing x with
  | nil =>
    intro v hv
    rw [List.mem_singleton] at hv
    simp [List.foldl, hv]
  | cons y ys ih =>
    intro v hv
    simp only [List.foldl]
    have hhead := ih (max x y) (max x y) (List.mem_cons_self _ _)
    rcases List.mem_cons.mp hv with h1 | h1
    · subst h1; exact le_trans (le_max_left v y) hhead
    · rcases List.mem_cons.mp h1 with h2 | h2
      · subst h2; exact le_trans (le_max_right x v) hhead
      · exact ih (max x y) v (List.mem_cons_of_mem _ h2)

/- ------------------------------------------------------------------ -/
/- C2: data range on commit.                                           -/
/- ------------------------------------------------------------------ -/

/-- C2 counterexample: for the empty TimeSeries the range computed at
part_000 lines 59-64 is [Infinity, -Infinity], not the sentinel [0, 0]
claimed by the spec. -/
theorem computeDataRange_empty_not_sentinel :
    computeDataRange ([] : List SensorReading) ≠ [ENum.num 0, ENum.num 0] := by
  decide

/-- C2 amended: for every TimeSeries holding at least one channel value,
the committed data range is [min, max] over every channel value of every
reading, with the first component at most the second; for the empty
TimeSeries the computed range is [Infinity, -Infinity], the values of
Math.min and Math.max on an empty spread, not the sentinel [0, 0]. -/
theorem computeDataRange_spec (data : List SensorReading)
    (h : allReadings data ≠ []) :
    (∃ a b : Int, computeDataRange data = [ENum.num a, ENum.num b] ∧
      a ∈ allReadings data ∧ b ∈ allReadings data ∧
      (∀ v ∈ allReadings data, a ≤ v ∧ v ≤ b) ∧ a ≤ b) ∧
    computeDataRange ([] : List SensorReading) = [ENum.posInf, ENum.negInf] := by
  constructor
  · obtain ⟨x, xs, hx⟩ := List.exists_cons_of_ne_nil h
    refine ⟨xs.foldl min x, xs.foldl max x, ?_, ?_, ?_, ?_, ?_⟩
    · simp [computeDataRange, hx, jsMin, jsMax]
    · rw [hx]; exact foldl_min_mem x xs
    · rw [hx]; exact foldl_max_mem x xs
    · intro v hv
      rw [hx] at hv
      exact ⟨foldl_min_le x xs v hv, le_foldl_max x xs v hv⟩
    · have hmem : x ∈ x :: xs := List.mem_cons_self _ _
      exact le_trans (foldl_min_le x xs x hmem) (le_foldl_max x xs x hmem)
  · decide

/-- C2 witness: the amended statement instantiated at the two sample
readings, whose channel values are 1, 5, 3, 2. -/
theorem computeDataRange_spec_witness :
    (∃ a b : Int, computeDataRange [r1, r2] = [ENum.num a, ENum.num b] ∧
      a ∈ allReadings [r1, r2] ∧ b ∈ allReadings [r1, r2] ∧
      (∀ v ∈ allReadings [r1, r2], a ≤ v ∧ v ≤ b) ∧ a ≤ b) ∧
    computeDataRange ([] : List SensorReading) = [ENum.posInf, ENum.negInf] :=
  computeDataRange_spec [r1, r2] (by decide)

/- ------------------------------------------------------------------ -/
/- C3: empty committed series.                                         -/
/- ------------------------------------------------------------------ -/

/-- A sample sensors entry used to distinguish an unchanged sensors list
from one recomputed to be empty. -/
def sOpt : SensorOption := { name := "s1", isSelected := true, colour := some "red" }

/-- A state whose chartOptions already hold one sensors entry. -/
def stWithSensors : ScreenState :=
  { initialState with chartOptions :=
    { initialState.chartOptions with sensors := [sOpt] } }

/-- C3 counterexample: committing an empty fetched series from a state
with a non empty sensors list neither empties the channel option list nor
avoids an error: the destructuring of data[0] at part_000 line 73 throws,
the catch block runs, and the previous sensors list survives unchanged. -/
theorem refresh_empty_counterexample :
    ¬ ((refresh samplePalette sampleScaleTable stWithSensors "str"
          (Fetched.ok []) (Fetched.ok [])).1.chartOptions.sensors = [] ∧
       (refresh samplePalette sampleScaleTable stWithSensors "str"
          (Fetched.ok []) (Fetched.ok [])).2 = false) := by
  decide

/-- C3 amended: committing an empty fetched series stores the empty data,
the dataType and the range [Infinity, -Infinity], forces Chart mode when
the dataType is raw, then throws on the destructuring of data[0]; the
error is caught (the Bool is true), chartOptions and modelOptions are left
unchanged rather than recomputed, and isLoading is cleared. -/
theorem refresh_emptySeries (palette : List String)
    (modelColourScale : String → Option (Int × Int)) (st : ScreenState)
    (dt : String) (tempResult : Fetched (List TempSample)) :
    refresh palette modelColourScale st dt (Fetched.ok []) tempResult =
      ({ st with
          data := []
          dataType := dt
          dataRange := [ENum.posInf, ENum.negInf]
          mode := if dt = "raw" then 1 else st.mode
          isLoading := false }, true) := by
  by_cases h : dt = "raw" <;>
    simp [refresh, computeDataRange, allReadings, jsMin, jsMax, h]

/- ------------------------------------------------------------------ -/
/- C4: failure handling.                                               -/
/- ------------------------------------------------------------------ -/

/-- C4 counterexample: when the temperature fetch at part_000 line 82
rejects, the refresh fails with a FetchError yet visible state has already
changed: the committed data now differs from the previous one. -/
theorem refresh_tempFailure_counterexample :
    (refresh samplePalette sampleScaleTable initialState "str"
        (Fetched.ok [r1]) Fetched.err).1.data ≠ initialState.data := by
  decide

/-- C4 amended: when the primary data fetch rejects, the catch block runs
(the error is logged, the Bool is true), every piece of visible state
except isLoading is unchanged, isLoading is cleared and no retry occurs;
when the primary fetch succeeds with a non empty series but the
temperature fetch rejects, the updates already applied to data, dataType,
dataRange and mode persist while chartOptions and modelOptions stay
unchanged, the error is caught and logged and isLoading is cleared. -/
theorem refresh_failure_spec (palette : List String)
    (modelColourScale : String → Option (Int × Int)) (st : ScreenState)
    (dt : String) (tempResult : Fetched (List TempSample))
    (first : SensorReading) (rest : List SensorReading) :
    refresh palette modelColourScale st dt Fetched.err tempResult =
      ({ st with isLoading := false }, true) ∧
    refresh palette modelColourScale st dt (Fetched.ok (first :: rest)) Fetched.err =
      ({ st with
          data := first :: rest
          dataType := dt
          dataRange := computeDataRange (first :: rest)
          mode := if dt = "raw" then 1 else st.mode
          isLoading := false }, true) := by
  constructor
  · rfl
  · by_cases h : dt = "raw" <;> simp [refresh, h]

/- ------------------------------------------------------------------ -/
/- C1: which concurrent refresh wins.                                  -/
/- ------------------------------------------------------------------ -/

/-- A refresh invocation whose fetch settles with a given payload stores
exactly that payload as the committed data, in every subbranch of the
function: empty payload, failing temperature fetch or full success. -/
lemma settle_data (palette : List String)
    (modelColourScale : String → Option (Int × Int)) (st : ScreenState)
    (c : RefreshCall) (d : List SensorReading)
    (h : c.fetchResult = Fetched.ok d) :
    (settle palette modelColourScale st c).data = d := by
  unfold settle refresh
  rw [h]
  by_cases hdt : c.dataType = "raw" <;> cases d with
  | nil => simp [hdt]
  | cons first rest => cases c.tempResult <;> simp [hdt]

/-- First refresh invocation of the race: fetches the series [r1]. -/
def callA : RefreshCall :=
  { dataType := "str", fetchResult := Fetched.ok [r1], tempResult := Fetched.ok [] }

/-- Second refresh invocation of the race: fetches the series [r2]. -/
def callB : RefreshCall :=
  { dataType := "str", fetchResult := Fetched.ok [r2], tempResult := Fetched.ok [] }

/-- C1 counterexample: two refresh invocations are issued in the order
callA then callB, and their responses settle in the opposite order, callB
first.  The committed series then equals the result of callA, the earlier
issued call, not the result [r2] of the most recently issued call callB:
part_000 has no sequence number mechanism, so the earlier response
overwrites the later one when it settles last. -/
theorem staleResponse_commits_counterexample :
    (runSettles samplePalette sampleScaleTable initialState [callB, callA]).data = [r1] ∧
    ([r1] : List SensorReading) ≠ [r2] := by
  constructor
  · decide
  · decide

/-- C1 amended: after all responses settle, the committed TimeSeries
equals the payload of the LAST response to settle whose fetch succeeded,
regardless of issue order; a response settling later always overwrites
earlier commits, because refresh compares no sequence numbers. -/
theorem lastSettled_wins (palette : List String)
    (modelColourScale : String → Option (Int × Int)) (st : ScreenState)
    (settled : List RefreshCall) (c : RefreshCall) (d : List SensorReading)
    (h : c.fetchResult = Fetched.ok d) :
    (runSettles palette modelColourScale st (settled ++ [c])).data = d := by
  unfold runSettles
  rw [List.foldl_append]
  exact settle_data palette modelColourScale _ c d h

/-- C1 witness: the amended statement instantiated on the race of the
counterexample, with callB settling last: its payload [r2] is committed. -/
theorem lastSettled_wins_witness :
    callB.fetchResult = Fetched.ok [r2] ∧
    (runSettles samplePalette sampleScaleTable initialState ([callA] ++ [callB])).data = [r2] :=
  ⟨rfl, lastSettled_wins samplePalette sampleScaleTable initialState [callA] callB [r2] rfl⟩

/- ------------------------------------------------------------------ -/
/- C5: raw data type forces Chart mode.                                -/
/- ------------------------------------------------------------------ -/

/-- C5: committing a fetch with the raw dataType sets mode to Chart
unconditionally, whatever mode held before and whatever the payload or the
temperature fetch outcome; while the committed dataType is raw, a Model
selection arriving through the Menu surface is inert; SteelFrameScreen
moreover disables the model mode button on a raw commit. -/
theorem raw_forcesChart (palette : List String)
    (modelColourScale : String → Option (Int × Int)) (st : ScreenState)
    (d0 : List SensorReading) (tempResult : Fetched (List TempSample))
    (st2 : ScreenState) (h : st2.dataType = "raw")
    (sfst : SteelFrameScreen.SFState) (d1 : List SensorReading) :
    ((refresh palette modelColourScale st "raw" (Fetched.ok d0) tempResult).1).mode = 1 ∧
    ((refresh palette modelColourScale st "raw" (Fetched.ok d0) tempResult).1).dataType = "raw" ∧
    menuSetMode 0 st2 = st2 ∧
    (SteelFrameScreen.refresh sfst "raw" (Fetched.ok d1)).modelModeEnabled = false := by
  refine ⟨?_, ?_, ?_, ?_⟩
  · cases d0 <;> cases tempResult <;> simp [refresh]
  · cases d0 <;> cases tempResult <;> simp [refresh]
  · simp [menuSetMode, h]
  · simp [SteelFrameScreen.refresh]

/-- C5 witness: the statement instantiated with a committed raw state,
a concrete raw refresh and a concrete SteelFrameScreen refresh. -/
theorem raw_forcesChart_witness :
    ({ initialState with dataType := "raw" } : ScreenState).dataType = "raw" ∧
    (((refresh samplePalette sampleScaleTable initialState "raw"
        (Fetched.ok [r1]) (Fetched.ok [])).1).mode = 1 ∧
     ((refresh samplePalette sampleScaleTable initialState "raw"
        (Fetched.ok [r1]) (Fetched.ok [])).1).dataType = "raw" ∧
     menuSetMode 0 { initialState with dataType := "raw" } =
       { initialState with dataType := "raw" } ∧
     (SteelFrameScreen.refresh
        { data := [], mode := 0, modelModeEnabled := true,
          dataType := "str", isLoading := false } "raw"
        (Fetched.ok [r1])).modelModeEnabled = false) :=
  ⟨rfl, raw_forcesChart samplePalette sampleScaleTable initialState [r1]
    (Fetched.ok []) { initialState with dataType := "raw" } rfl
    { data := [], mode := 0, modelModeEnabled := true,
      dataType := "str", isLoading := false } [r1]⟩

/- ------------------------------------------------------------------ -/
/- C6: channel options of a committed non empty series.                -/
/- ------------------------------------------------------------------ -/

lemma computeSensors_length (palette : List String) (start : Nat)
    (names : List String) :
    (computeSensors palette start names).length = names.length := by
  induction names generalizing start with
  | nil => rfl
  | cons n ns ih => simp [computeSensors, ih]

lemma computeSensors_get (palette : List String) (start : Nat)
    (names : List String) (i : Nat) :
    (computeSensors palette start names).get? i =
      (names.get? i).map (fun name =>
        { name := name
          isSelected := decide (start + i < 3)
          colour := palette.get? ((start + i) % palette.length) : SensorOption }) := by
  induction names generalizing start i with
  | nil => simp [computeSensors]
  | cons n ns ih =>
    cases i with
    | zero => simp [computeSensors]
    | succ j =>
      have harith : start + (j + 1) = start + 1 + j := by omega
      simp only [computeSensors, List.get?_cons_succ, harith]
      exact ih (start + 1) j

/-- C6: on a successful commit of a non empty series the sensors list has
exactly one entry per key of the first reading, in discovery order; entry
i carries the i-th channel name, is selected exactly when i < 3, and its
colour is palette entry i modulo the palette size. -/
theorem refresh_channelOptions (palette : List String)
    (modelColourScale : String → Option (Int × Int)) (st : ScreenState)
    (dt : String) (first : SensorReading) (rest : List SensorReading)
    (temps : List TempSample) :
    ((refresh palette modelColourScale st dt (Fetched.ok (first :: rest))
        (Fetched.ok temps)).1).chartOptions.sensors.length = first.readings.length ∧
    ∀ i : Nat,
      ((refresh palette modelColourScale st dt (Fetched.ok (first :: rest))
          (Fetched.ok temps)).1).chartOptions.sensors.get? i =
        (first.readings.get? i).map (fun p =>
          { name := p.1
            isSelected := decide (i < 3)
            colour := palette.get? (i % palette.length) : SensorOption }) := by
  have hsens : ((refresh palette modelColourScale st dt (Fetched.ok (first :: rest))
      (Fetched.ok temps)).1).chartOptions.sensors =
      computeSensors palette 0 (first.readings.map Prod.fst) := by
    by_cases h : dt = "raw" <;> simp [refresh, h]
  constructor
  · rw [hsens, computeSensors_length, List.length_map]
  · intro i
    rw [hsens, computeSensors_get]
    simp only [List.get?_eq_getElem?, List.getElem?_map, Nat.zero_add, Option.map_map]
    cases first.readings[i]? <;> rfl

/- ------------------------------------------------------------------ -/
/- C7: dropping out of the live set forces Historical.                 -/
/- ------------------------------------------------------------------ -/

/-- C7: whenever the live package list changes to one not containing the
package while liveMode is Live, the useEffect sets live to false and
forces liveMode to Historical in the same update. -/
theorem liveSetChanged_forcesHistorical (name : String) (pkgs : List String)
    (st : ScreenState) (hmode : st.liveMode = 0)
    (h : pkgs.contains name = false) :
    (liveSetChanged name pkgs st).liveMode = 1 ∧
    (liveSetChanged name pkgs st).live = false := by
  have hmem : name ∉ pkgs := by simpa using h
  simp [liveSetChanged, hmem]

/-- C7 witness: the package steel-frame drops out of a live set holding
only basement while the screen is in Live mode. -/
theorem liveSetChanged_forcesHistorical_witness :
    (liveSetChanged "steel-frame" ["basement"]
        { initialState with liveMode := 0 }).liveMode = 1 ∧
    (liveSetChanged "steel-frame" ["basement"]
        { initialState with liveMode := 0 }).live = false :=
  liveSetChanged_forcesHistorical "steel-frame" ["basement"]
    { initialState with liveMode := 0 } rfl (by decide)

/- ------------------------------------------------------------------ -/
/- C8: a Live toggle while not live is not rejected.                   -/
/- ------------------------------------------------------------------ -/

/-- C8 counterexample: in the initial state the package is not live, yet
a user toggle targeting Live does change state: liveMode moves from
Historical to Live, so the controller does not reject the toggle. -/
theorem liveToggle_notRejected_counterexample :
    initialState.live = false ∧
    userSetLiveMode 0 initialState ≠ initialState ∧
    (userSetLiveMode 0 initialState).liveMode = 0 := by
  refine ⟨rfl, ?_, rfl⟩
  decide

/-- C8 amended: the Screen passes setLiveMode to the Menu unguarded, so a
user toggle sets liveMode to its target unconditionally, even targeting
Live while the package is not in the live set; the invariant is only
restored at the next live set change, when the useEffect forces liveMode
back to Historical for a package outside the set. -/
theorem liveToggle_applied_unconditionally (st st2 : ScreenState) (m : Int)
    (name : String) (pkgs : List String) (h : pkgs.contains name = false) :
    (userSetLiveMode m st).liveMode = m ∧
    (liveSetChanged name pkgs st2).liveMode = 1 := by
  have hmem : name ∉ pkgs := by simpa using h
  exact ⟨rfl, by simp [liveSetChanged, hmem]⟩

/-- C8 witness: the amended statement at the initial state with the
package steel-frame absent from a live set holding only basement. -/
theorem liveToggle_applied_unconditionally_witness :
    (userSetLiveMode 0 initialState).liveMode = 0 ∧
    (liveSetChanged "steel-frame" ["basement"] initialState).liveMode = 1 :=
  liveToggle_applied_unconditionally initialState initialState 0
    "steel-frame" ["basement"] (by decide)

/- ------------------------------------------------------------------ -/
/- C9: model colour scale on commit.                                   -/
/- ------------------------------------------------------------------ -/

/-- A state in Fixed colour mode, i.e. with a truthy colourMode. -/
def stFixed : ScreenState :=
  { initialState with modelOptions :=
    { initialState.modelOptions with colourMode := 1 } }

/-- C9 counterexample: committing a raw fetch in Fixed colour mode with a
table lacking an entry for raw succeeds silently: no error is signalled
(the catch never runs) and the scale is simply undefined. -/
theorem fixedScale_missingEntry_counterexample :
    (refresh samplePalette sampleScaleTable stFixed "raw"
        (Fetched.ok [r1]) (Fetched.ok [])).2 = false ∧
    ((refresh samplePalette sampleScaleTable stFixed "raw"
        (Fetched.ok [r1]) (Fetched.ok [])).1).modelOptions.scale = none := by
  constructor
  · decide
  · decide

/-- C9 amended: on a successful commit the model scale equals the
committed data range when colourMode is Adaptive (0) and the static table
entry for the dataType when colourMode is Fixed; a Fixed lookup for a
dataType absent from the table yields an undefined scale silently, with no
error surfaced at call time. -/
theorem modelScale_spec (palette : List String)
    (modelColourScale : String → Option (Int × Int)) (st : ScreenState)
    (dt : String) (first : SensorReading) (rest : List SensorReading)
    (temps : List TempSample) :
    ((refresh palette modelColourScale st dt (Fetched.ok (first :: rest))
        (Fetched.ok temps)).1).modelOptions.scale =
      (if st.modelOptions.colourMode ≠ 0
        then (modelColourScale dt).map (fun (p : Int × Int) => [ENum.num p.1, ENum.num p.2])
        else some (computeDataRange (first :: rest))) ∧
    (refresh palette modelColourScale st dt (Fetched.ok (first :: rest))
        (Fetched.ok temps)).2 = false := by
  by_cases h : dt = "raw" <;> simp [refresh, h]

/- ------------------------------------------------------------------ -/
/- C10: frame effect of a successful refresh.                          -/
/- ------------------------------------------------------------------ -/

/-- C10: a successful refresh keeps showTemperature, showContext and
colourMode at their current values; inside chartOptions only sensors and
temperatureData receive new values, and inside modelOptions only the
scale. -/
theorem refresh_framePreservation (palette : List String)
    (modelColourScale : String → Option (Int × Int)) (st : ScreenState)
    (dt : String) (first : SensorReading) (rest : List SensorReading)
    (temps : List TempSample) :
    ((refresh palette modelColourScale st dt (Fetched.ok (first :: rest))
        (Fetched.ok temps)).1).chartOptions.showTemperature =
      st.chartOptions.showTemperature ∧
    ((refresh palette modelColourScale st dt (Fetched.ok (first :: rest))
        (Fetched.ok temps)).1).modelOptions.showContext =
      st.modelOptions.showContext ∧
    ((refresh palette modelColourScale st dt (Fetched.ok (first :: rest))
        (Fetched.ok temps)).1).modelOptions.colourMode =
      st.modelOptions.colourMode ∧
    ((refresh palette modelColourScale st dt (Fetched.ok (first :: rest))
        (Fetched.ok temps)).1).chartOptions.temperatureData = temps := by
  by_cases h : dt = "raw" <;> simp [refresh, h]

end Nrfis
